import Mathlib

/-!
Shallow embedding of the MP3 frame/side-info/channel parsers from
src/src/main.rs (diskkid/mp3decoder), with theorems settling the frozen
claims about the natural-language specification.

Conventions of the embedding:
- Rust u8 bytes are modelled as Fin 256; wider Rust integers (u16, usize)
  are modelled as Nat.  Every arithmetic step mirrors the source line by
  line; the single place where Rust u8 arithmetic can overflow
  (side[0] << 1 in the side-info parsers) carries an explicit % 256.
- Rust panics (explicit panic macros, slice index out of bounds,
  Option unwrap on None) are modelled by the Res type: Res.abort names the
  abort site.  The source functions have no typed decode-failure channel at
  all: new_channel and the side-info constructors return plain values, and
  the io Result returned by new_frame_header can only carry I/O errors,
  never decode failures.  Res.abort therefore models a process abort, not a
  recoverable typed error.
- Byte arrays are modelled as functions from Fin n to Fin 256.
-/

namespace Mp3

/-- A Rust u8 byte. -/
abbrev Byte := Fin 256

/-- The abort sites of the source: explicit panic macros, slice indexing
out of bounds, and Option unwrap on None. -/
inductive Panik where
  | unsupportedVersionId (x : Nat)
  | unsupportedLayer (x : Nat)
  | reservedLayerIndex
  | indexOutOfBounds (idx len : Nat)
  | unsupportedMode (x : Nat)
  | unsupportedSamplingFreq (x : Nat)
  | unwrapNone
  | unsupportedBlockType (x : Nat)
deriving DecidableEq

/-- Result of running a fragment of the source: either a value, or an
abort (Rust panic).  This is not a typed error channel of the source
program; it records that the process would die at the given site. -/
inductive Res (α : Type) where
  | ok (val : α)
  | abort (p : Panik)
deriving DecidableEq

def Res.bind {α β : Type} (r : Res α) (f : α → Res β) : Res β :=
  match r with
  | .ok a => f a
  | .abort p => .abort p

@[simp] theorem Res.bind_ok {α β : Type} (a : α) (f : α → Res β) :
    Res.bind (Res.ok a) f = f a := rfl

@[simp] theorem Res.bind_abort {α β : Type} (p : Panik) (f : α → Res β) :
    Res.bind (Res.abort p) f = Res.abort p := rfl

/-- main.rs lines 56-61. -/
inductive Mode where
  | Stereo
  | JointStereo
  | DualMonaural
  | SingleChannel
deriving DecidableEq

/-- main.rs lines 63-69. -/
inductive Layer where
  | Reserved
  | L1
  | L2
  | L3
deriving DecidableEq

/-- main.rs lines 71-76. -/
inductive MpegVersion where
  | V1
  | V2
  | V2_5
deriving DecidableEq

/-- main.rs lines 82-97: the decoded frame header. -/
structure FrameHeader where
  id : MpegVersion
  layer : Layer
  protection : Bool
  bitrate : Nat
  sampling_freq : Nat
  padding : Bool
  mode : Mode
  i_stereo : Bool
  ms_stereo : Bool
  copyright : Bool
  original : Bool
  emphasis : Nat
  size : Nat
deriving DecidableEq

/-- main.rs lines 108-113. -/
structure SideInfo where
  main_data_begin : Nat
  scfsi : Nat
deriving DecidableEq

/-- main.rs lines 138-145. -/
inductive BlockType where
  | Normal
  | Start
  | Short
  | Mixed
  | End
deriving DecidableEq

/-- main.rs lines 120-136: one flat struct holding the fields of both
bit layouts (normal and window-switched). -/
structure Channel where
  part2_3_length : Nat
  big_values : Nat
  global_gain : Nat
  scalefac_compress : Nat
  preemphasis : Bool
  scalefac_scale : Bool
  count1table_select : Bool
  table_select : List Nat
  region_0_count : Nat
  region_1_count : Nat
  block_type : BlockType
  subblock_gain : List Nat
deriving DecidableEq

/-- main.rs lines 30-47: bitrate table, rows indexed by the 4-bit bitrate
index, columns by layer (Layer 1, 2, 3). -/
def BITRATE_MAP : List (List Nat) :=
  [[0, 0, 0],
   [32, 32, 32],
   [64, 48, 40],
   [96, 56, 48],
   [128, 64, 56],
   [160, 80, 64],
   [192, 96, 80],
   [224, 112, 96],
   [256, 128, 112],
   [288, 160, 128],
   [320, 192, 160],
   [352, 224, 192],
   [384, 256, 224],
   [416, 320, 256],
   [448, 384, 320]]

/-- main.rs lines 49-53: sampling frequency table. -/
def SAMPLING_FREQ_MAP : List Nat := [44100, 48000, 32000]

/-- main.rs lines 8-28: the lazy static HashMap from bitrate to the row
of frame sizes at 32 kHz, 44.1 kHz, 48 kHz.  Keys absent from the map
yield none (the source then panics on unwrap). -/
def FRAME_SIZE_MAP (bitrate : Nat) : Option (List Nat) :=
  match bitrate with
  | 32 => some [144, 104, 96]
  | 40 => some [180, 130, 120]
  | 48 => some [216, 156, 120]
  | 56 => some [252, 182, 168]
  | 64 => some [288, 208, 192]
  | 80 => some [360, 261, 240]
  | 96 => some [432, 313, 288]
  | 112 => some [504, 365, 336]
  | 128 => some [576, 417, 384]
  | 160 => some [720, 522, 480]
  | 192 => some [864, 626, 576]
  | 224 => some [1008, 731, 672]
  | 256 => some [1152, 835, 768]
  | 320 => some [1440, 1044, 960]
  | _ => none

/-- Rust slice indexing, aborting out of bounds as the source would. -/
def listGet {α : Type} (l : List α) (i : Nat) : Res α :=
  match l.get? i with
  | some v => Res.ok v
  | none => Res.abort (Panik.indexOutOfBounds i l.length)

/-- main.rs lines 160-165: the match on the 2-bit version field; value 1
hits the catch-all arm, which is a panic in the source. -/
def matchVersion (x : Nat) : Res MpegVersion :=
  match x with
  | 0 => Res.ok MpegVersion.V2_5
  | 2 => Res.ok MpegVersion.V2
  | 3 => Res.ok MpegVersion.V1
  | x => Res.abort (Panik.unsupportedVersionId x)

/-- main.rs lines 166-172: the match on the 2-bit layer field; all four
2-bit values are mapped, the catch-all panic arm is unreachable. -/
def matchLayer (x : Nat) : Res Layer :=
  match x with
  | 0 => Res.ok Layer.Reserved
  | 1 => Res.ok Layer.L3
  | 2 => Res.ok Layer.L2
  | 3 => Res.ok Layer.L1
  | x => Res.abort (Panik.unsupportedLayer x)

/-- main.rs lines 178-183: layer to column index of BITRATE_MAP; the
Reserved layer hits a panic in the source. -/
def layerIndex (l : Layer) : Res Nat :=
  match l with
  | Layer.L3 => Res.ok 2
  | Layer.L2 => Res.ok 1
  | Layer.L1 => Res.ok 0
  | _ => Res.abort Panik.reservedLayerIndex

/-- main.rs lines 190-196: the match on the 2-bit mode field; the
catch-all panic arm is unreachable. -/
def matchMode (x : Nat) : Res Mode :=
  match x with
  | 0 => Res.ok Mode.Stereo
  | 1 => Res.ok Mode.JointStereo
  | 2 => Res.ok Mode.DualMonaural
  | 3 => Res.ok Mode.SingleChannel
  | x => Res.abort (Panik.unsupportedMode x)

/-- main.rs lines 202-207: the match from a sampling frequency back to a
column index of the FRAME_SIZE_MAP rows; any other frequency panics. -/
def samplingIndexOf (f : Nat) : Res Nat :=
  match f with
  | 44100 => Res.ok 1
  | 48000 => Res.ok 2
  | 32000 => Res.ok 0
  | x => Res.abort (Panik.unsupportedSamplingFreq x)

/-- Rust Option unwrap on the FRAME_SIZE_MAP lookup (main.rs line 208). -/
def unwrapRow (o : Option (List Nat)) : Res (List Nat) :=
  match o with
  | some r => Res.ok r
  | none => Res.abort Panik.unwrapNone

/-- main.rs lines 153-155: sync word check on the 4 header bytes. -/
def has_sync_word (frame_header : Fin 4 → Byte) : Bool :=
  ((frame_header 0).val == 0b11111111) &&
    ((frame_header 1).val &&& 0b11100000 == 0b11100000)

/-- main.rs lines 157-224: the frame header constructor, applied to the 4
bytes the source reads from the reader.  Note two faithfully preserved
quirks of the source:
- the sampling frequency index on line 186 is written
  frame_header[2] & 0b00001100 >> 2, and Rust shift binds tighter than
  bitwise and, so the index is frame_header[2] & 0b11 (bits 1-0 of byte
  2), not bits 3-2;
- there is no sync-word check here at all (the caller does that
  separately, on different bytes). -/
def new_frame_header (frame_header : Fin 4 → Byte) : Res FrameHeader :=
  Res.bind (matchVersion (((frame_header 1).val &&& 0b00011000) >>> 3)) fun id =>
  Res.bind (matchLayer (((frame_header 1).val &&& 0b00000110) >>> 1)) fun layer =>
  let protection := !((frame_header 1).val &&& 0b00000001 == 0b00000001)
  let bitrate_index := ((frame_header 2).val &&& 0b11110000) >>> 4
  Res.bind (layerIndex layer) fun layer_index =>
  Res.bind (listGet BITRATE_MAP bitrate_index) fun bitrateRow =>
  Res.bind (listGet bitrateRow layer_index) fun bitrate =>
  let sampling_freq_index := (frame_header 2).val &&& (0b00001100 >>> 2)
  Res.bind (listGet SAMPLING_FREQ_MAP sampling_freq_index) fun sampling_freq =>
  let padding := (frame_header 2).val &&& 0b00000010 == 0b00000010
  Res.bind (matchMode (((frame_header 3).val &&& 0b11000000) >>> 6)) fun mode =>
  let i_stereo := (frame_header 3).val &&& 0b00010000 == 0b00010000
  let ms_stereo := (frame_header 3).val &&& 0b00100000 == 0b00100000
  let copyright := (frame_header 3).val &&& 0b00001000 == 0b00001000
  let original := (frame_header 3).val &&& 0b00000100 == 0b00000100
  let emphasis := (frame_header 3).val &&& 0b00000011
  Res.bind (samplingIndexOf sampling_freq) fun i =>
  Res.bind (unwrapRow (FRAME_SIZE_MAP bitrate)) fun row =>
  Res.bind (listGet row i) fun size =>
  Res.ok
    { id := id
      layer := layer
      protection := protection
      bitrate := bitrate
      sampling_freq := sampling_freq
      padding := padding
      mode := mode
      i_stereo := i_stereo
      ms_stereo := ms_stereo
      copyright := copyright
      original := original
      emphasis := emphasis
      size := size }

/-- main.rs lines 100-105. -/
def FrameHeader.single_channel (h : FrameHeader) : Bool :=
  match h.mode with
  | Mode.SingleChannel => true
  | _ => false

/-- main.rs lines 238-246: mono side info from a 17-byte block.  The
shift side[0] << 1 is Rust u8 arithmetic and wraps, hence the % 256. -/
def new_side_info_mono (side : Fin 17 → Byte) : SideInfo :=
  let main_data_begin :=
    (((side 0).val <<< 1) % 256) ||| (((side 1).val &&& 0b10000000) >>> 7)
  let scfsi :=
    (((side 1).val &&& 0b00000011) <<< 2) ||| (((side 2).val &&& 0b11000000) >>> 6)
  { main_data_begin := main_data_begin, scfsi := scfsi }

/-- main.rs lines 248-256: stereo side info from a 32-byte block. -/
def new_side_info_stereo (side : Fin 32 → Byte) : SideInfo :=
  let main_data_begin :=
    (((side 0).val <<< 1) % 256) ||| (((side 1).val &&& 0b10000000) >>> 7)
  let scfsi :=
    (((side 1).val &&& 0b00111111) <<< 2) ||| (((side 2).val &&& 0b11000000) >>> 6)
  { main_data_begin := main_data_begin, scfsi := scfsi }

/-- main.rs lines 305-314: the match on the 2-bit block type code inside
the window-switched branch; code 2 is disambiguated to Mixed or Short by
the flag bit bytes[4] & 0b00001000, and code 0 hits the catch-all arm,
which is a panic in the source. -/
def matchBlockType (x flagbit : Nat) : Res BlockType :=
  match x with
  | 1 => Res.ok BlockType.Start
  | 2 => Res.ok (if flagbit = 0b00001000 then BlockType.Mixed else BlockType.Short)
  | 3 => Res.ok BlockType.End
  | x => Res.abort (Panik.unsupportedBlockType x)

/-- main.rs lines 259-335: the per-channel bit-allocation parser on an
8-byte window. -/
def new_channel (bytes : Fin 8 → Byte) : Res Channel :=
  let part2_3_length :=
    ((bytes 0).val <<< 4) ||| (((bytes 1).val &&& 0b11110000) >>> 4)
  let big_values :=
    (((bytes 1).val &&& 0b00001111) <<< 5) ||| (((bytes 2).val &&& 0b11111000) >>> 3)
  let global_gain :=
    (((bytes 2).val &&& 0b00000111) <<< 5) ||| (((bytes 3).val &&& 0b11111000) >>> 3)
  let scalefac_compress :=
    (((bytes 3).val &&& 0b00000111) <<< 1) ||| (((bytes 4).val &&& 0b10000000) >>> 7)
  let preemphasis := (bytes 7).val &&& 0b10000000 == 0b10000000
  let scalefac_scale := (bytes 7).val &&& 0b01000000 == 0b01000000
  let count1table_select := (bytes 7).val &&& 0b00100000 == 0b00100000
  let windows_witching_flag := ((bytes 4).val &&& 0b01000000) >>> 6
  if windows_witching_flag = 0 then
    let table_select_1 := ((bytes 4).val &&& 0b00111110) >>> 1
    let table_select_2 :=
      (((bytes 4).val &&& 0b00000001) <<< 4) ||| (((bytes 5).val &&& 0b11110000) >>> 4)
    let table_select_3 :=
      (((bytes 5).val &&& 0b00001111) <<< 1) ||| (((bytes 6).val &&& 0b10000000) >>> 7)
    let region_0_count := ((bytes 6).val &&& 0b01111000) >>> 3
    let region_1_count := (bytes 6).val &&& 0b00000111
    Res.ok
      { part2_3_length := part2_3_length
        big_values := big_values
        global_gain := global_gain
        scalefac_compress := scalefac_compress
        preemphasis := preemphasis
        scalefac_scale := scalefac_scale
        count1table_select := count1table_select
        table_select := [table_select_1, table_select_2, table_select_3]
        region_0_count := region_0_count
        region_1_count := region_1_count
        block_type := BlockType.Normal
        subblock_gain := [0, 0, 0] }
  else
    Res.bind
      (matchBlockType (((bytes 4).val &&& 0b00110000) >>> 4)
        ((bytes 4).val &&& 0b00001000)) fun block_type =>
    let table_select_1 :=
      (((bytes 4).val &&& 0b00000111) <<< 2) ||| (((bytes 5).val &&& 0b11000000) >>> 6)
    let table_select_2 := ((bytes 5).val &&& 0b00111110) >>> 1
    let subblock_gain_1 :=
      (((bytes 5).val &&& 0b00000001) <<< 2) ||| (((bytes 6).val &&& 0b11000000) >>> 6)
    let subblock_gain_2 := ((bytes 6).val &&& 0b00111000) >>> 3
    let subblock_gain_3 := (bytes 6).val &&& 0b00000111
    Res.ok
      { part2_3_length := part2_3_length
        big_values := big_values
        global_gain := global_gain
        scalefac_compress := scalefac_compress
        preemphasis := preemphasis
        scalefac_scale := scalefac_scale
        count1table_select := count1table_select
        table_select := [table_select_1, table_select_2, 0]
        region_0_count := 0
        region_1_count := 0
        block_type := block_type
        subblock_gain := [subblock_gain_1, subblock_gain_2, subblock_gain_3] }

end Mp3

namespace Mp3

set_option maxRecDepth 4000

/-! ## Shared byte-level lemmas -/

theorem shr_mask_le (x m k : Nat) : (x &&& m) >>> k ≤ m >>> k := by
  rw [Nat.shiftRight_eq_div_pow, Nat.shiftRight_eq_div_pow]
  exact Nat.div_le_div_right Nat.and_le_right

theorem and_mod4 : ∀ a : Fin 256, a.val &&& 0b00000011 = a.val % 4 := by decide

theorem and_mod64 : ∀ a : Fin 256, a.val &&& 0b00111111 = a.val % 64 := by decide

theorem top2_shift : ∀ b : Fin 256, (b.val &&& 0b11000000) >>> 6 = b.val >>> 6 := by decide

theorem top1_shift : ∀ b : Fin 256, (b.val &&& 0b10000000) >>> 7 = b.val >>> 7 := by decide

theorem shift7_lt : ∀ b : Fin 256, b.val >>> 7 < 2 := by decide

theorem shift6_lt : ∀ b : Fin 256, b.val >>> 6 < 4 := by decide

theorem mod4_lt : ∀ a : Fin 256, a.val % 4 < 4 := by decide

theorem mod64_lt : ∀ a : Fin 256, a.val % 64 < 64 := by decide

theorem lor_shl1 : ∀ (a : Fin 256) (t : Fin 2),
    ((a.val <<< 1) % 256) ||| t.val = (a.val * 2 + t.val) % 256 := by decide

theorem lor_shl2_4 : ∀ (x : Fin 4) (y : Fin 4),
    (x.val <<< 2) ||| y.val = x.val * 4 + y.val := by decide

theorem lor_shl2_64 : ∀ (x : Fin 64) (y : Fin 4),
    (x.val <<< 2) ||| y.val = x.val * 4 + y.val := by decide

/-- The main-data-begin expression of both side-info layouts, rewritten to
plain arithmetic: it is the 9-bit big-endian head value reduced mod 256
(the Rust u8 shift drops the top bit of byte 0). -/
theorem mdb_eq (a b : Fin 256) :
    ((a.val <<< 1) % 256) ||| ((b.val &&& 0b10000000) >>> 7) =
      (a.val * 2 + b.val >>> 7) % 256 := by
  rw [top1_shift]
  exact lor_shl1 a ⟨b.val >>> 7, shift7_lt b⟩

/-- The mono scfsi expression, rewritten to plain arithmetic: the 4-bit
field made of bits 1-0 of byte 1 and bits 7-6 of byte 2 (stream bit
offsets 14-17). -/
theorem scfsi_mono_eq (a b : Fin 256) :
    ((a.val &&& 0b00000011) <<< 2) ||| ((b.val &&& 0b11000000) >>> 6) =
      (a.val % 4) * 4 + b.val >>> 6 := by
  rw [top2_shift, and_mod4]
  exact lor_shl2_4 ⟨a.val % 4, mod4_lt a⟩ ⟨b.val >>> 6, shift6_lt b⟩

/-- The stereo scfsi expression, rewritten to plain arithmetic: the 8-bit
field made of bits 5-0 of byte 1 and bits 7-6 of byte 2 (stream bit
offsets 10-17). -/
theorem scfsi_stereo_eq (a b : Fin 256) :
    ((a.val &&& 0b00111111) <<< 2) ||| ((b.val &&& 0b11000000) >>> 6) =
      (a.val % 64) * 4 + b.val >>> 6 := by
  rw [top2_shift, and_mod64]
  exact lor_shl2_64 ⟨a.val % 64, mod64_lt a⟩ ⟨b.val >>> 6, shift6_lt b⟩

theorem byte_all_set : ∀ a : Fin 256,
    ((a.val == 255) = true ↔ ∀ k : Fin 8, a.val.testBit k.val = true) := by decide

theorem byte_top3_set : ∀ a : Fin 256,
    (((a.val &&& 0b11100000) == 0b11100000) = true ↔
      ∀ k : Fin 3, a.val.testBit (5 + k.val) = true) := by decide

end Mp3

namespace Mp3

/-! ## C1: sampling-frequency index decoding -/

/-- C1 evaluation input: header bytes FF FB 94 00.  Bits 3-2 of byte 2
hold index 1 (48000 Hz); bits 1-0 of byte 2 hold 0. -/
def c1_input : Fin 4 → Byte :=
  fun i => ([0xFF, 0xFB, 0x94, 0x00] : List Byte).getD i.val 0

/-- C1 evaluation output: the header the source actually produces for
c1_input, with sampling_freq 44100 rather than 48000. -/
def c1_header : FrameHeader :=
  { id := MpegVersion.V1
    layer := Layer.L3
    protection := false
    bitrate := 128
    sampling_freq := 44100
    padding := false
    mode := Mode.Stereo
    i_stereo := false
    ms_stereo := false
    copyright := false
    original := false
    emphasis := 0
    size := 417 }

/-- C1: code bug witness.  The claim says the sampling-frequency index is
the 2-bit field at bits 3-2 of header byte 2.  On c1_input that field is
1, whose table entry is 48000 Hz; but the source line 186 reads
frame_header[2] & 0b00001100 >> 2, and Rust shift binds tighter than
bitwise and, so the code masks with 0b11 (bits 1-0) instead and returns
44100 Hz.  (Additionally, a reserved index reaching the table would be an
out-of-bounds abort, not a typed InvalidSamplingRate failure.) -/
theorem c1_sampling_rate_bug :
    new_frame_header c1_input = Res.ok c1_header ∧
    ((c1_input 2).val &&& 0b00001100) >>> 2 = 1 ∧
    SAMPLING_FREQ_MAP.getD 1 0 = 48000 ∧
    c1_header.sampling_freq = 44100 ∧
    ¬(44100 = 48000) := by decide

/-! ## C2: panics on malformed input -/

/-- C2 counterexample input: sync bytes present, version bits 01
(reserved), an input the claim calls malformed input data. -/
def c2_cex_input : Fin 4 → Byte :=
  fun i => ([0xFF, 0xEB, 0x90, 0x00] : List Byte).getD i.val 0

/-- C2 counterexample: the claim says the parse functions never panic on
malformed input data and report every malformed input as a typed decode
failure.  But on c2_cex_input (reserved version bits 01) the source hits
the explicit panic arm of the version match: the abort site below is a
Rust panic, and the source has no typed decode-failure channel at all
(its io Result only carries I/O errors). -/
theorem c2_counterexample :
    new_frame_header c2_cex_input = Res.abort (Panik.unsupportedVersionId 1) := by decide

/-- C2 amended: the parse functions do panic on malformed input data; in
particular new_frame_header panics on reserved version bits 01, and
new_channel panics when the window-switching flag is set and the 2-bit
block-type code is 00.  (The side-info constructors are total; only I/O
errors travel through the Result channel.) -/
theorem c2_amended_panics : ∀ (h : Fin 4 → Byte) (b : Fin 8 → Byte),
    ((((h 1).val &&& 0b00011000) >>> 3 = 1) →
      new_frame_header h = Res.abort (Panik.unsupportedVersionId 1)) ∧
    ((((b 4).val &&& 0b01000000) >>> 6 = 1) →
      (((b 4).val &&& 0b00110000) >>> 4 = 0) →
      new_channel b = Res.abort (Panik.unsupportedBlockType 0)) := by
  intro h b
  constructor
  · intro hv
    simp only [new_frame_header, hv]
    rfl
  · intro hw hbt
    simp only [new_channel, hw, hbt]
    rfl

/-- C2 witness input: a 4-byte header with reserved version bits 01. -/
def c2_wit_header_input : Fin 4 → Byte :=
  fun i => ([0x12, 0x08, 0x34, 0x56] : List Byte).getD i.val 0

/-- C2 witness input: an 8-byte channel block with the window-switching
flag set and block-type code 00. -/
def c2_wit_channel_input : Fin 8 → Byte :=
  fun i => ([1, 2, 3, 4, 0x4F, 5, 6, 7] : List Byte).getD i.val 0

/-- C2 witness: the amended theorem applied at concrete inputs. -/
theorem c2_amended_witness :
    new_frame_header c2_wit_header_input = Res.abort (Panik.unsupportedVersionId 1) ∧
    new_channel c2_wit_channel_input = Res.abort (Panik.unsupportedBlockType 0) :=
  ⟨(c2_amended_panics c2_wit_header_input c2_wit_channel_input).1 (by decide),
   (c2_amended_panics c2_wit_header_input c2_wit_channel_input).2 (by decide) (by decide)⟩

/-! ## C3: the worked example header -/

/-- C3 input: header bytes FF FB 90 00. -/
def c3_input : Fin 4 → Byte :=
  fun i => ([0xFF, 0xFB, 0x90, 0x00] : List Byte).getD i.val 0

/-- C3 expected output: V1, Layer III, no CRC, 128 kbps, 44100 Hz,
Stereo, frame size 417 bytes. -/
def c3_header : FrameHeader :=
  { id := MpegVersion.V1
    layer := Layer.L3
    protection := false
    bitrate := 128
    sampling_freq := 44100
    padding := false
    mode := Mode.Stereo
    i_stereo := false
    ms_stereo := false
    copyright := false
    original := false
    emphasis := 0
    size := 417 }

/-- C3: on header bytes FF FB 90 00 the parser succeeds and returns
version V1, layer L3, no CRC protection, bitrate 128 kbps, sampling rate
44100 Hz, channel mode Stereo, padding clear, and frame size 417, the
table value for bitrate 128 at 44100 Hz. -/
theorem c3_example_header :
    new_frame_header c3_input = Res.ok c3_header ∧
    (FRAME_SIZE_MAP 128).map (fun r => r.getD 1 0) = some 417 := by decide

/-! ## C4: the format tables -/

/-- C4: code bug witness.  The claim says every frame-size entry equals
floor(144 * bitrate_bps / sampling_rate_hz).  The formula holds for the
32 kHz and 44.1 kHz entries of the 48 kbps row (216 and 156), but the
48 kHz entry is 120 in the source where the formula gives
144 * 48000 / 48000 = 144 (the row repeats the 120 of the 40 kbps row). -/
theorem c4_frame_size_bug :
    FRAME_SIZE_MAP 48 = some [216, 156, 120] ∧
    144 * (48 * 1000) / 32000 = 216 ∧
    144 * (48 * 1000) / 44100 = 156 ∧
    144 * (48 * 1000) / 48000 = 144 ∧
    ¬(120 = 144) := by decide

end Mp3

namespace Mp3

/-! ## C5: side-information fields -/

/-- C5 counterexample input: a 17-byte mono block whose first byte is
0x80, so the 9-bit head value is 256. -/
def c5_cex_block : Fin 17 → Byte :=
  fun i => ([0x80] : List Byte).getD i.val 0

/-- C5 counterexample: the claim says main_data_begin equals the unsigned
value of the first 9 bits of the block.  On c5_cex_block those 9 bits
form 256, but the source computes 0: side[0] << 1 is Rust u8 arithmetic,
so the top bit of byte 0 is discarded. -/
theorem c5_counterexample :
    (new_side_info_mono c5_cex_block).main_data_begin = 0 ∧
    (c5_cex_block 0).val * 2 + (c5_cex_block 1).val >>> 7 = 256 ∧
    ¬((new_side_info_mono c5_cex_block).main_data_begin =
        (c5_cex_block 0).val * 2 + (c5_cex_block 1).val >>> 7) := by decide

/-- C5 amended: in both layouts main_data_begin equals the value of the
first 9 bits reduced mod 256 (the u8 left shift drops the top bit of
byte 0); scale_factor_selection is the 4-bit field at stream bit offset
14 in the mono layout (bits 1-0 of byte 1 and bits 7-6 of byte 2, after
the 5 private bits, not immediately after main_data_begin) and the 8-bit
field at stream bit offset 10 in the stereo layout (bits 5-0 of byte 1
and bits 7-6 of byte 2), not a 6-bit field. -/
theorem c5_amended_fields : ∀ (s : Fin 17 → Byte) (t : Fin 32 → Byte),
    (new_side_info_mono s).main_data_begin =
      ((s 0).val * 2 + (s 1).val >>> 7) % 256 ∧
    (new_side_info_mono s).scfsi = ((s 1).val % 4) * 4 + (s 2).val >>> 6 ∧
    (new_side_info_stereo t).main_data_begin =
      ((t 0).val * 2 + (t 1).val >>> 7) % 256 ∧
    (new_side_info_stereo t).scfsi = ((t 1).val % 64) * 4 + (t 2).val >>> 6 :=
  fun s t =>
    ⟨mdb_eq (s 0) (s 1), scfsi_mono_eq (s 1) (s 2),
     mdb_eq (t 0) (t 1), scfsi_stereo_eq (t 1) (t 2)⟩

/-! ## C6: sync word handling -/

/-- C6 counterexample input: byte 0 is 0x00, so the 11-bit sync pattern
is absent. -/
def c6_cex_input : Fin 4 → Byte :=
  fun i => ([0x00, 0xFB, 0x90, 0x00] : List Byte).getD i.val 0

/-- The header the source decodes from c6_cex_input despite the missing
sync word. -/
def c6_cex_header : FrameHeader :=
  { id := MpegVersion.V1
    layer := Layer.L3
    protection := false
    bitrate := 128
    sampling_freq := 44100
    padding := false
    mode := Mode.Stereo
    i_stereo := false
    ms_stereo := false
    copyright := false
    original := false
    emphasis := 0
    size := 417 }

/-- C6 counterexample: the claim says every 4-byte input without the
11-bit sync pattern makes parse_frame_header report SyncNotFound and
decode no fields.  But the source has no SyncNotFound failure at all:
new_frame_header performs no sync check, and on c6_cex_input (sync
absent, has_sync_word is false) it decodes a full header. -/
theorem c6_counterexample :
    has_sync_word c6_cex_input = false ∧
    new_frame_header c6_cex_input = Res.ok c6_cex_header := by decide

/-- C6 amended: the sync check lives only in the separate has_sync_word
predicate used by the caller, which holds exactly when all 8 bits of
byte 0 and the top 3 bits of byte 1 are set (the 11-bit sync pattern);
new_frame_header itself never looks at byte 0, so it decodes fields
regardless of the sync pattern. -/
theorem c6_amended_sync : ∀ (h : Fin 4 → Byte),
    (has_sync_word h = true ↔
      ((∀ k : Fin 8, (h 0).val.testBit k.val = true) ∧
        (∀ k : Fin 3, (h 1).val.testBit (5 + k.val) = true))) ∧
    new_frame_header (Function.update h 0 0) = new_frame_header h := by
  intro h
  constructor
  · rw [has_sync_word, Bool.and_eq_true]
    exact and_congr (byte_all_set (h 0)) (byte_top3_set (h 1))
  · have e1 : Function.update h 0 (0 : Byte) 1 = h 1 := Function.update_noteq (by decide) _ _
    have e2 : Function.update h 0 (0 : Byte) 2 = h 2 := Function.update_noteq (by decide) _ _
    have e3 : Function.update h 0 (0 : Byte) 3 = h 3 := Function.update_noteq (by decide) _ _
    simp only [new_frame_header, e1, e2, e3]

end Mp3

namespace Mp3

/-! ## C7: invalid bitrate indices -/

/-- C7 counterexample input: valid version and layer bits, bitrate index
15. -/
def c7_cex_hi : Fin 4 → Byte :=
  fun i => ([0xFF, 0xFD, 0xFC, 0xAB] : List Byte).getD i.val 0

/-- C7 counterexample input: valid version and layer bits, bitrate index
0. -/
def c7_cex_zero : Fin 4 → Byte :=
  fun i => ([0xFF, 0xFD, 0x01, 0xCC] : List Byte).getD i.val 0

/-- C7 counterexample: the claim says bitrate index 15, and index 0 for
the layers where it is invalid, are reported as the typed failure
InvalidBitrate rather than panicking.  The source has no InvalidBitrate
failure: index 15 dies on an out-of-bounds slice access into the 15-row
bitrate table, and index 0 (bitrate 0, every layer) dies on unwrap of
the missing frame-size key; both abort sites are Rust panics. -/
theorem c7_counterexample :
    new_frame_header c7_cex_hi = Res.abort (Panik.indexOutOfBounds 15 15) ∧
    new_frame_header c7_cex_zero = Res.abort Panik.unwrapNone := by decide

/-- C7 amended: for every input with valid version bits (00, 10, 11) and
a non-reserved layer, bitrate index 15 always aborts with the
out-of-bounds panic in the bitrate table, and bitrate index 0 (which
yields bitrate 0 for every layer) always aborts with the unwrap panic in
the frame-size lookup, provided the sampling lookup does not abort first
(bits 1-0 of byte 2 are not both set, per the line 186 precedence
quirk); no header is returned in either case and no typed failure
exists. -/
theorem c7_amended_bitrate : ∀ (h : Fin 4 → Byte),
    (((h 1).val &&& 0b00011000) >>> 3 = 0 ∨ ((h 1).val &&& 0b00011000) >>> 3 = 2 ∨
      ((h 1).val &&& 0b00011000) >>> 3 = 3) →
    (((h 1).val &&& 0b00000110) >>> 1 = 1 ∨ ((h 1).val &&& 0b00000110) >>> 1 = 2 ∨
      ((h 1).val &&& 0b00000110) >>> 1 = 3) →
    ((((h 2).val &&& 0b11110000) >>> 4 = 15 →
        new_frame_header h = Res.abort (Panik.indexOutOfBounds 15 15)) ∧
      (((h 2).val &&& 0b11110000) >>> 4 = 0 →
        ¬((h 2).val &&& (0b00001100 >>> 2) = 3) →
        new_frame_header h = Res.abort Panik.unwrapNone)) := by
  intro h hv hl
  constructor
  · intro h15
    rcases hv with hv|hv|hv <;> rcases hl with hl|hl|hl <;>
      (simp only [new_frame_header, hv, hl, h15]; rfl)
  · intro hb0 hne
    have hr : (0b00001100 : Nat) >>> 2 = 3 := rfl
    rw [hr] at hne
    obtain ⟨si, hsi⟩ : ∃ x, (h 2).val &&& 3 = x := ⟨_, rfl⟩
    rw [hsi] at hne
    have hsile : si ≤ 3 := hsi ▸ Nat.and_le_right
    obtain ⟨m, hm⟩ : ∃ x, ((h 3).val &&& 0b11000000) >>> 6 = x := ⟨_, rfl⟩
    have hmle : m ≤ 3 := by
      rw [← hm]
      have h1 := shr_mask_le (h 3).val 0b11000000 6
      simpa using h1
    have hsic : si = 0 ∨ si = 1 ∨ si = 2 := by omega
    have hmc : m = 0 ∨ m = 1 ∨ m = 2 ∨ m = 3 := by omega
    rcases hsic with h0|h0|h0 <;> subst h0 <;>
      rcases hmc with m0|m0|m0|m0 <;> subst m0 <;>
      rcases hv with hv|hv|hv <;> rcases hl with hl|hl|hl <;>
      (simp only [new_frame_header, hr, hv, hl, hb0, hsi, hm]; rfl)

/-- C7 witness input with bitrate index 15. -/
def c7_wit_hi : Fin 4 → Byte :=
  fun i => ([0xFF, 0xFB, 0xF0, 0x00] : List Byte).getD i.val 0

/-- C7 witness input with bitrate index 0. -/
def c7_wit_zero : Fin 4 → Byte :=
  fun i => ([0xFF, 0xFB, 0x00, 0x00] : List Byte).getD i.val 0

/-- C7 witness: the amended theorem applied at concrete inputs. -/
theorem c7_amended_witness :
    new_frame_header c7_wit_hi = Res.abort (Panik.indexOutOfBounds 15 15) ∧
    new_frame_header c7_wit_zero = Res.abort Panik.unwrapNone :=
  ⟨(c7_amended_bitrate c7_wit_hi (by decide) (by decide)).1 (by decide),
   (c7_amended_bitrate c7_wit_zero (by decide) (by decide)).2 (by decide) (by decide)⟩

end Mp3

namespace Mp3

/-! ## C8: channel parser totality -/

/-- C8 counterexample input: window-switching flag set, block-type code
00. -/
def c8_cex_bytes : Fin 8 → Byte :=
  fun i => ([0, 0, 0, 0, 0x40, 0, 0, 0] : List Byte).getD i.val 0

/-- C8 counterexample: the claim says parse_channel on any 8-byte input
either returns a Channel or reports the typed failure InvalidBlockType.
The source signature returns a bare Channel with no error channel at
all; on c8_cex_bytes (flag set, block-type code 00) it hits the explicit
panic arm of the block-type match, an abort rather than a typed
failure. -/
theorem c8_counterexample :
    new_channel c8_cex_bytes = Res.abort (Panik.unsupportedBlockType 0) := by decide

/-- C8 amended: new_channel returns a Channel for every 8-byte input
except exactly those where the window-switching flag is set and the
2-bit block-type code is 00, where it panics (the source has no typed
InvalidBlockType failure). -/
theorem c8_amended_totality : ∀ (bytes : Fin 8 → Byte),
    (∃ c, new_channel bytes = Res.ok c) ↔
      ¬((((bytes 4).val &&& 0b01000000) >>> 6 = 1) ∧
        (((bytes 4).val &&& 0b00110000) >>> 4 = 0)) := by
  intro bytes
  obtain ⟨w, hw⟩ : ∃ x, ((bytes 4).val &&& 0b01000000) >>> 6 = x := ⟨_, rfl⟩
  have hwle : w ≤ 1 := by
    rw [← hw]
    have h1 := shr_mask_le (bytes 4).val 0b01000000 6
    simpa using h1
  obtain ⟨bt, hbt⟩ : ∃ x, ((bytes 4).val &&& 0b00110000) >>> 4 = x := ⟨_, rfl⟩
  have hbtle : bt ≤ 3 := by
    rw [← hbt]
    have h1 := shr_mask_le (bytes 4).val 0b00110000 4
    simpa using h1
  rw [hw, hbt]
  have hwc : w = 0 ∨ w = 1 := by omega
  rcases hwc with h|h <;> subst h
  · constructor
    · intro _ hcon
      exact absurd hcon.1 (by omega)
    · intro _
      exact ⟨_, by simp only [new_channel, hw]; rfl⟩
  · have hbc : bt = 0 ∨ bt = 1 ∨ bt = 2 ∨ bt = 3 := by omega
    rcases hbc with h|h|h|h <;> subst h
    · constructor
      · intro ⟨c, hc⟩ _
        rw [show new_channel bytes = Res.abort (Panik.unsupportedBlockType 0) from by
          simp only [new_channel, hw, hbt]; rfl] at hc
        exact absurd hc (by simp)
      · intro hcon
        exact absurd ⟨rfl, rfl⟩ hcon
    · constructor
      · intro _ hcon
        exact absurd hcon.2 (by omega)
      · intro _
        exact ⟨_, by simp only [new_channel, hw, hbt]; rfl⟩
    · constructor
      · intro _ hcon
        exact absurd hcon.2 (by omega)
      · intro _
        exact ⟨_, by simp only [new_channel, hw, hbt]; rfl⟩
    · constructor
      · intro _ hcon
        exact absurd hcon.2 (by omega)
      · intro _
        exact ⟨_, by simp only [new_channel, hw, hbt]; rfl⟩

/-! ## C9: layout variant selection -/

/-- C9: for every 8-byte input, window-switching flag 0 yields a result
with block type Normal and subblock_gain left at the zero placeholder
(no window-switched data), and flag 1 with block-type code 10 yields
Mixed when the mixed-flag bit (bytes[4] bit 3) is set and Short when it
is clear, reproducing the two-level branch of the source. -/
theorem c9_variant_selection : ∀ (bytes : Fin 8 → Byte),
    ((((bytes 4).val &&& 0b01000000) >>> 6 = 0 →
      ∃ c, new_channel bytes = Res.ok c ∧ c.block_type = BlockType.Normal ∧
        c.subblock_gain = [0, 0, 0])) ∧
    ((((bytes 4).val &&& 0b01000000) >>> 6 = 1 →
      (((bytes 4).val &&& 0b00110000) >>> 4 = 2) →
      ∃ c, new_channel bytes = Res.ok c ∧
        c.block_type = (if (bytes 4).val &&& 0b00001000 = 0b00001000
          then BlockType.Mixed else BlockType.Short))) := by
  intro bytes
  constructor
  · intro h0
    simp only [new_channel, h0]
    exact ⟨_, rfl, rfl, rfl⟩
  · intro h1 h2
    simp only [new_channel, h1, h2]
    exact ⟨_, rfl, rfl⟩

/-- C9 witness input with window-switching flag 0. -/
def c9_wit_normal : Fin 8 → Byte :=
  fun i => ([0x12, 0x34, 0x56, 0x78, 0x00, 0x9A, 0xBC, 0xDE] : List Byte).getD i.val 0

/-- C9 witness input with flag 1, block-type code 10, mixed bit set. -/
def c9_wit_mixed : Fin 8 → Byte :=
  fun i => ([0x12, 0x34, 0x56, 0x78, 0x68, 0x9A, 0xBC, 0xDE] : List Byte).getD i.val 0

/-- C9 witness input with flag 1, block-type code 10, mixed bit clear. -/
def c9_wit_short : Fin 8 → Byte :=
  fun i => ([0x12, 0x34, 0x56, 0x78, 0x60, 0x9A, 0xBC, 0xDE] : List Byte).getD i.val 0

/-- C9 witness: the theorem applied at concrete inputs for all three
branches. -/
theorem c9_witness :
    (∃ c, new_channel c9_wit_normal = Res.ok c ∧ c.block_type = BlockType.Normal ∧
      c.subblock_gain = [0, 0, 0]) ∧
    (∃ c, new_channel c9_wit_mixed = Res.ok c ∧
      c.block_type = (if (c9_wit_mixed 4).val &&& 0b00001000 = 0b00001000
        then BlockType.Mixed else BlockType.Short)) ∧
    (∃ c, new_channel c9_wit_short = Res.ok c ∧
      c.block_type = (if (c9_wit_short 4).val &&& 0b00001000 = 0b00001000
        then BlockType.Mixed else BlockType.Short)) :=
  ⟨(c9_variant_selection c9_wit_normal).1 (by decide),
   (c9_variant_selection c9_wit_mixed).2 (by decide) (by decide),
   (c9_variant_selection c9_wit_short).2 (by decide) (by decide)⟩

/-! ## C10: inactive layout fields are zero -/

/-- C10: on every input where new_channel returns, the fields of the
layout not selected by the window-switching flag are materialized as
zeros in the flat Channel struct: flag 0 gives block_type Normal and
subblock_gain [0,0,0]; flag 1 gives table_select[2] = 0 and both region
counts 0. -/
theorem c10_inactive_fields_zero : ∀ (bytes : Fin 8 → Byte) (c : Channel),
    new_channel bytes = Res.ok c →
    ((((bytes 4).val &&& 0b01000000) >>> 6 = 0 →
      c.block_type = BlockType.Normal ∧ c.subblock_gain = [0, 0, 0]) ∧
     (((bytes 4).val &&& 0b01000000) >>> 6 = 1 →
      c.table_select.getD 2 0 = 0 ∧ c.region_0_count = 0 ∧ c.region_1_count = 0)) := by
  intro bytes c hok
  constructor
  · intro h0
    simp only [new_channel, h0] at hok
    rw [if_pos trivial] at hok
    injection hok with hc
    subst hc
    exact ⟨rfl, rfl⟩
  · intro h1
    simp only [new_channel, h1] at hok
    rw [if_neg (by omega)] at hok
    obtain ⟨bt, hbt⟩ : ∃ x, ((bytes 4).val &&& 0b00110000) >>> 4 = x := ⟨_, rfl⟩
    rw [hbt] at hok
    have hbtle : bt ≤ 3 := by
      rw [← hbt]
      have h2 := shr_mask_le (bytes 4).val 0b00110000 4
      simpa using h2
    have hc : bt = 0 ∨ bt = 1 ∨ bt = 2 ∨ bt = 3 := by omega
    rcases hc with h|h|h|h <;> subst h
    · simp only [matchBlockType, Res.bind_abort] at hok
      exact absurd hok (by simp)
    · simp only [matchBlockType, Res.bind_ok] at hok
      injection hok with hc
      subst hc
      exact ⟨rfl, rfl, rfl⟩
    · simp only [matchBlockType, Res.bind_ok] at hok
      injection hok with hc
      subst hc
      exact ⟨rfl, rfl, rfl⟩
    · simp only [matchBlockType, Res.bind_ok] at hok
      injection hok with hc
      subst hc
      exact ⟨rfl, rfl, rfl⟩

/-- C10 witness input: all-zero bytes (window-switching flag 0). -/
def c10_wit_normal : Fin 8 → Byte :=
  fun i => ([] : List Byte).getD i.val 0

/-- C10 witness input: byte 4 is 0x50 (flag 1, block-type code 01). -/
def c10_wit_windowed : Fin 8 → Byte :=
  fun i => ([0, 0, 0, 0, 0x50, 0, 0, 0] : List Byte).getD i.val 0

/-- The Channel the source returns on c10_wit_normal. -/
def c10_ch_normal : Channel :=
  { part2_3_length := 0
    big_values := 0
    global_gain := 0
    scalefac_compress := 0
    preemphasis := false
    scalefac_scale := false
    count1table_select := false
    table_select := [0, 0, 0]
    region_0_count := 0
    region_1_count := 0
    block_type := BlockType.Normal
    subblock_gain := [0, 0, 0] }

/-- The Channel the source returns on c10_wit_windowed. -/
def c10_ch_windowed : Channel :=
  { part2_3_length := 0
    big_values := 0
    global_gain := 0
    scalefac_compress := 0
    preemphasis := false
    scalefac_scale := false
    count1table_select := false
    table_select := [0, 0, 0]
    region_0_count := 0
    region_1_count := 0
    block_type := BlockType.Start
    subblock_gain := [0, 0, 0] }

/-- C10 witness: the theorem applied at concrete inputs for both
branches. -/
theorem c10_witness :
    (c10_ch_normal.block_type = BlockType.Normal ∧
      c10_ch_normal.subblock_gain = [0, 0, 0]) ∧
    (c10_ch_windowed.table_select.getD 2 0 = 0 ∧
      c10_ch_windowed.region_0_count = 0 ∧ c10_ch_windowed.region_1_count = 0) :=
  ⟨(c10_inactive_fields_zero c10_wit_normal c10_ch_normal (by decide)).1 (by decide),
   (c10_inactive_fields_zero c10_wit_windowed c10_ch_windowed (by decide)).2 (by decide)⟩

end Mp3
